import Mathlib

/-!
Shallow embedding of the seat-inventory reservation core of the
airport-api-service repository (src/airport/models.py,
src/airport/serializers.py, src/airport/views.py,
src/airport/custom_fields.py), together with theorems settling the
frozen claims about it.

Conventions:
  * Django model rows become Lean structures; the database becomes a
    `DB` record holding the order and ticket tables as lists.
  * Fallible code (serializer validation, database constraint checks)
    returns `Except ApiError _`.
  * `transaction.atomic` is embedded by `runTxn`: an exception inside
    the block rolls the state back to the state at entry.
  * Decimal prices are embedded as `Int` (only `*` is used on them).
-/

namespace Airport

/-- Airplane seat geometry (models.py `Airplane.rows`, `Airplane.seats_in_row`). -/
structure Airplane where
  rows : Int
  seats_in_row : Int
deriving Repr, DecidableEq

/-- Flight row: airplane geometry, price, status name and departure time
(models.py `Flight`); `departure_time` is an abstract timestamp. -/
structure Flight where
  id : Nat
  airplane : Airplane
  price : Int
  statusName : String
  departure_time : Int
deriving Repr, DecidableEq

/-- A persisted ticket row (models.py `Ticket`). -/
structure Ticket where
  row : Int
  seat : Int
  flightId : Nat
  orderId : Nat
  price : Int
deriving Repr, DecidableEq

/-- A persisted order row (models.py `Order`). -/
structure Order where
  id : Nat
  flightId : Nat
  userId : Nat
  total_price : Int
deriving Repr, DecidableEq

/-- The database state visible to the reservation core: the order and
ticket tables, plus the next fresh order primary key. -/
structure DB where
  orders : List Order
  tickets : List Ticket
  nextOrderId : Nat
deriving Repr, DecidableEq

/-- Structured errors raised by the reservation core (serializers.py
`ValidationError` payloads and the database `IntegrityError`). -/
inductive ApiError where
  | rowOutOfRange (row bound : Int)
  | seatOutOfRange (seat bound : Int)
  | duplicateSeat (row seat : Int)
  | seatConflict (pairs : List (Int × Int))
  | ticketsTaken
  | integrityError
  | doesNotExist
deriving Repr, DecidableEq

/-- models.py `Ticket.validate_row`: raises iff not `1 <= row <= num_rows`. -/
def validate_row (row num_rows : Int) : Except ApiError Unit :=
  if 1 ≤ row ∧ row ≤ num_rows then .ok () else .error (.rowOutOfRange row num_rows)

/-- models.py `Ticket.validate_seat`: raises iff not `1 <= seat <= num_seats`. -/
def validate_seat (seat num_seats : Int) : Except ApiError Unit :=
  if 1 ≤ seat ∧ seat ≤ num_seats then .ok () else .error (.seatOutOfRange seat num_seats)

/-- A submitted ticket item: row, seat, and an optional client-supplied
price. serializers.py declares `price` with `read_only=True`, so the
framework drops it before validation: no code below reads it. -/
structure TicketReq where
  row : Int
  seat : Int
  price : Option Int
deriving Repr, DecidableEq

/-- A ticket item that passed `TicketSerializer.validate`: the price
field has been overwritten with the flight's price. -/
structure ValidTicket where
  row : Int
  seat : Int
  price : Int
deriving Repr, DecidableEq

/-- The validated attrs produced by `TicketSerializer.validate`: the
submitted row and seat with `attrs["price"] = flight.price`. -/
def toValid (flight : Flight) (req : TicketReq) : ValidTicket :=
  { row := req.row, seat := req.seat, price := flight.price }

/-- serializers.py `TicketSerializer.validate`: validates row then seat
against the flight's airplane bounds, then sets `attrs["price"]` to the
flight's price. The client-supplied price is read-only and never read. -/
def ticketSerializer_validate (flight : Flight) (req : TicketReq) :
    Except ApiError ValidTicket :=
  match validate_row req.row flight.airplane.rows with
  | .error e => .error e
  | .ok _ =>
    match validate_seat req.seat flight.airplane.seats_in_row with
    | .error e => .error e
    | .ok _ => .ok (toValid flight req)

/-- serializers.py `CustomTicketField.to_internal_value`: validates each
submitted ticket with the child `TicketSerializer` using
`is_valid(raise_exception=True)`, so the loop stops at the first invalid
item. (The JSON-string unwrapping is transport plumbing and elided.) -/
def customTicketField_to_internal_value (flight : Flight) :
    List TicketReq → Except ApiError (List ValidTicket)
  | [] => .ok []
  | req :: rest =>
    match ticketSerializer_validate flight req with
    | .error e => .error e
    | .ok t =>
      match customTicketField_to_internal_value flight rest with
      | .error e => .error e
      | .ok ts => .ok (t :: ts)

/-- The seat-pair loop of serializers.py `OrderSerializer.validate`:
walks the batch keeping a `seen_seats` set and returns the first pair
already seen, if any. -/
def find_duplicate_seat (seen : List (Int × Int)) :
    List (Int × Int) → Option (Int × Int)
  | [] => none
  | p :: rest =>
    if p ∈ seen then some p else find_duplicate_seat (p :: seen) rest

/-- serializers.py `OrderSerializer.validate`: rejects the batch with a
duplicate-seat error (naming the repeated row and seat, no index) when
some `(row, seat)` pair repeats. -/
def orderSerializer_validate (tickets_data : List ValidTicket) :
    Except ApiError (List ValidTicket) :=
  match find_duplicate_seat [] (tickets_data.map fun t => (t.row, t.seat)) with
  | some p => .error (.duplicateSeat p.1 p.2)
  | none => .ok tickets_data

/-- The `(flight, row, seat)` collision test behind the database
constraint `unique_ticket_row_seat_flight` (models.py `Ticket.Meta`). -/
def sameSeatTriple (a b : Ticket) : Bool :=
  a.flightId == b.flightId && a.row == b.row && a.seat == b.seat

/-- Whether inserting `t` into `existing` would violate the unique
constraint `unique_ticket_row_seat_flight`. -/
def violatesUnique (existing : List Ticket) (t : Ticket) : Bool :=
  existing.any fun e => sameSeatTriple e t

/-- Embeds `Ticket.objects.bulk_create` under the table's unique constraint:
inserts the new rows in order and raises `IntegrityError` at the first
row that collides with an already-present row. -/
def bulk_create : List Ticket → List Ticket → Except ApiError (List Ticket)
  | existing, [] => .ok existing
  | existing, t :: ts =>
    if violatesUnique existing t then .error .integrityError
    else bulk_create (existing ++ [t]) ts

/-- The availability probe of `OrderSerializer.create` /
`OrderUpdateSerializer.update`:
`Ticket.objects.select_for_update().filter(flight=flight,
row__in=requested_rows, seat__in=requested_seat_numbers)
.values_list("row", "seat")` — note the deliberately broad filter
(row and seat matched independently). -/
def probeTakenSeats (tickets : List Ticket) (flightId : Nat)
    (requested : List (Int × Int)) : List (Int × Int) :=
  (tickets.filter fun t =>
      t.flightId == flightId
        && (requested.map Prod.fst).contains t.row
        && (requested.map Prod.snd).contains t.seat).map
    fun t => (t.row, t.seat)

/-- The `requested_seats` set of `(row, seat)` pairs of the batch
(a Python `set`, embedded as a deduplicated list). -/
def requestedSeats (tickets_data : List ValidTicket) : List (Int × Int) :=
  (tickets_data.map fun t => (t.row, t.seat)).dedup

/-- The intersection `requested_seats.intersection(taken_seats)`. -/
def conflictingSeats (requested taken : List (Int × Int)) : List (Int × Int) :=
  requested.filter fun p => taken.contains p

/-- The `Ticket(order=..., flight=..., row=..., seat=..., price=flight.price)`
constructor call shared by `OrderSerializer.create` and
`OrderUpdateSerializer.update`. -/
def mkNewTicket (flight : Flight) (orderId : Nat) (t : ValidTicket) : Ticket :=
  { row := t.row, seat := t.seat, flightId := flight.id,
    orderId := orderId, price := flight.price }

/-- serializers.py `OrderSerializer.create` (inside `transaction.atomic`):
probe the requested seats, abort with a conflict error naming every
conflicting pair, otherwise create the order header with
`total_price = flight.price * len(tickets_data)` and bulk-insert one
ticket per item, each priced at `flight.price`. -/
def orderSerializer_create (db : DB) (flight : Flight) (userId : Nat)
    (tickets_data : List ValidTicket) : Except ApiError DB :=
  let requested := requestedSeats tickets_data
  let taken := probeTakenSeats db.tickets flight.id requested
  let conflicting := conflictingSeats requested taken
  if conflicting = [] then
    let order : Order :=
      { id := db.nextOrderId, flightId := flight.id, userId := userId,
        total_price := flight.price * (tickets_data.length : Int) }
    let tickets_to_create : List Ticket :=
      tickets_data.map (mkNewTicket flight order.id)
    match bulk_create db.tickets tickets_to_create with
    | .error e => .error e
    | .ok allTickets =>
        .ok { orders := db.orders ++ [order], tickets := allTickets,
              nextOrderId := db.nextOrderId + 1 }
  else .error (.seatConflict conflicting)

/-- serializers.py `OrderUpdateSerializer.update` (inside
`transaction.atomic`): delete the order's tickets, probe the new batch
against the remaining tickets, abort with "One or more tickets already
taken." on any intersection, otherwise bulk-insert the new tickets and
set `total_price = flight.price * len(new_tickets)`. -/
def orderUpdateSerializer_update (db : DB) (order : Order) (flight : Flight)
    (tickets_data : List ValidTicket) : Except ApiError DB :=
  let remaining := db.tickets.filter fun t => t.orderId ≠ order.id
  let new_tickets : List Ticket := tickets_data.map (mkNewTicket flight order.id)
  let requested := (new_tickets.map fun t => (t.row, t.seat)).dedup
  let taken := probeTakenSeats remaining flight.id requested
  if conflictingSeats requested taken = [] then
    match bulk_create remaining new_tickets with
    | .error e => .error e
    | .ok allTickets =>
        .ok { orders := db.orders.map fun o =>
                if o.id = order.id then
                  { o with total_price :=
                      flight.price * (new_tickets.length : Int) }
                else o,
              tickets := allTickets,
              nextOrderId := db.nextOrderId }
  else .error .ticketsTaken

/-- The serializer pipeline for order creation: field conversion
(`CustomTicketField.to_internal_value`), object-level validation
(`OrderSerializer.validate`), then `OrderSerializer.create`. -/
def createOrderFlow (db : DB) (flight : Flight) (userId : Nat)
    (reqs : List TicketReq) : Except ApiError DB :=
  match customTicketField_to_internal_value flight reqs with
  | .error e => .error e
  | .ok ts =>
    match orderSerializer_validate ts with
    | .error e => .error e
    | .ok ts2 => orderSerializer_create db flight userId ts2

/-- The serializer pipeline for order replace: field conversion, then
`OrderUpdateSerializer.update` (this serializer defines no object-level
duplicate check). -/
def updateOrderFlow (db : DB) (order : Order) (flight : Flight)
    (reqs : List TicketReq) : Except ApiError DB :=
  match customTicketField_to_internal_value flight reqs with
  | .error e => .error e
  | .ok ts => orderUpdateSerializer_update db order flight ts

/-- Embeds `transaction.atomic`: a raised error rolls the database back to the
state at entry; the error is surfaced to the caller. -/
def runTxn (db : DB) (r : Except ApiError DB) : DB × Option ApiError :=
  match r with
  | .ok db2 => (db2, none)
  | .error e => (db, some e)

/-- Order creation as observed by the client: pipeline plus rollback. -/
def createOrderTxn (db : DB) (flight : Flight) (userId : Nat)
    (reqs : List TicketReq) : DB × Option ApiError :=
  runTxn db (createOrderFlow db flight userId reqs)

/-- Order replace as observed by the client: pipeline plus rollback. -/
def updateOrderTxn (db : DB) (order : Order) (flight : Flight)
    (reqs : List TicketReq) : DB × Option ApiError :=
  runTxn db (updateOrderFlow db order flight reqs)

/-- views.py `OrderViewSet.get_flight_queryset`: flights with status in
SCHEDULED / BOARDING / DELAYED and `departure_time__gte` now. -/
def bookableStatusName (name : String) : Bool :=
  name == "SCHEDULED" || name == "BOARDING" || name == "DELAYED"

/-- The bookable-flight queryset (views.py `get_flight_queryset`). -/
def get_flight_queryset (flights : List Flight) (now : Int) : List Flight :=
  flights.filter fun f => bookableStatusName f.statusName && now ≤ f.departure_time

/-- custom_fields.py `CustomPrimaryKeyRelatedField` resolving the
`flight` primary key of an order-create request: a `get(pk=...)` against
the view's bookable queryset; a miss is the `does_not_exist` failure. -/
def flightField_to_internal_value (flights : List Flight) (now : Int)
    (pk : Nat) : Except ApiError Flight :=
  match (get_flight_queryset flights now).find? (fun f => f.id == pk) with
  | some f => .ok f
  | none => .error .doesNotExist

/-- The uniqueness invariant enforced by `unique_ticket_row_seat_flight`:
no two rows of the ticket table share `(flight, row, seat)`. -/
def uniqueSeats : List Ticket → Bool
  | [] => true
  | t :: rest => (rest.all fun u => !sameSeatTriple t u) && uniqueSeats rest

/-- Whether some live ticket occupies pair `p` on flight `flightId`. -/
def hasLiveTicket (tickets : List Ticket) (flightId : Nat) (p : Int × Int) : Bool :=
  tickets.any fun t => t.flightId == flightId && t.row == p.1 && t.seat == p.2

/-- Whether some live ticket of an order other than `orderId` occupies
pair `p` on flight `flightId`. -/
def hasLiveTicketOther (tickets : List Ticket) (flightId : Nat)
    (orderId : Nat) (p : Int × Int) : Bool :=
  tickets.any fun t =>
    t.flightId == flightId && t.row == p.1 && t.seat == p.2 && t.orderId != orderId

/-- The `(row, seat)` pairs of a submitted batch. -/
def reqPairs (reqs : List TicketReq) : List (Int × Int) :=
  reqs.map fun r => (r.row, r.seat)

/-- Bounds validity of one submitted ticket against a flight's airplane
(the property checked by `TicketSerializer.validate`). -/
def inBounds (flight : Flight) (req : TicketReq) : Bool :=
  (1 ≤ req.row && req.row ≤ flight.airplane.rows)
    && (1 ≤ req.seat && req.seat ≤ flight.airplane.seats_in_row)

/-- A 10-row by 10-seat airplane used in concrete scenarios. -/
def apTen : Airplane := { rows := 10, seats_in_row := 10 }

/-- A bookable flight over `apTen` with price 100. -/
def fTen : Flight :=
  { id := 1, airplane := apTen, price := 100, statusName := "SCHEDULED",
    departure_time := 50 }

/-- A seat request with no client-supplied price. -/
def mkReq (r s : Int) : TicketReq := { row := r, seat := s, price := none }

/-- The empty database. -/
def dbEmpty : DB := { orders := [], tickets := [], nextOrderId := 1 }

/-- The database after one successful order (user 7) for seat (1,1) on `fTen`. -/
def dbOne : DB :=
  { orders := [{ id := 1, flightId := 1, userId := 7, total_price := 100 }],
    tickets := [{ row := 1, seat := 1, flightId := 1, orderId := 1, price := 100 }],
    nextOrderId := 2 }

/-- The order living in `dbOne`. -/
def ordOne : Order := { id := 1, flightId := 1, userId := 7, total_price := 100 }

/-- A store with two one-ticket orders on `fTen`: order 1 holds (1,1) and
order 2 holds (2,2). -/
def dbTwo : DB :=
  { orders := [ordOne, { id := 2, flightId := 1, userId := 9, total_price := 100 }],
    tickets := [{ row := 1, seat := 1, flightId := 1, orderId := 1, price := 100 },
                { row := 2, seat := 2, flightId := 1, orderId := 2, price := 100 }],
    nextOrderId := 3 }

/-- Store after user 8 successfully books (2,2) on `fTen` over `dbOne`. -/
def dbCreated : DB :=
  { orders := [{ id := 1, flightId := 1, userId := 7, total_price := 100 },
               { id := 2, flightId := 1, userId := 8, total_price := 100 }],
    tickets := [{ row := 1, seat := 1, flightId := 1, orderId := 1, price := 100 },
                { row := 2, seat := 2, flightId := 1, orderId := 2, price := 100 }],
    nextOrderId := 3 }

/-- Store after order 1 successfully replaces (1,1) by (1,2),(1,3). -/
def dbReplaced : DB :=
  { orders := [{ id := 1, flightId := 1, userId := 7, total_price := 200 }],
    tickets := [{ row := 1, seat := 2, flightId := 1, orderId := 1, price := 100 },
                { row := 1, seat := 3, flightId := 1, orderId := 1, price := 100 }],
    nextOrderId := 2 }

/-- A cancelled flight sharing `fTen`'s id and geometry. -/
def fCancelled : Flight := { fTen with statusName := "CANCELLED" }

theorem inBounds_iff (f : Flight) (r : TicketReq) :
    inBounds f r = true ↔
      ((1 ≤ r.row ∧ r.row ≤ f.airplane.rows)
        ∧ (1 ≤ r.seat ∧ r.seat ≤ f.airplane.seats_in_row)) := by
  simp [inBounds, and_assoc]

theorem ticketSerializer_validate_of_inBounds (f : Flight) (r : TicketReq)
    (h : inBounds f r = true) :
    ticketSerializer_validate f r = .ok (toValid f r) := by
  rw [inBounds_iff] at h
  unfold ticketSerializer_validate validate_row validate_seat
  rw [if_pos h.1, if_pos h.2]

theorem ticketSerializer_validate_of_row_bad (f : Flight) (r : TicketReq)
    (h : ¬(1 ≤ r.row ∧ r.row ≤ f.airplane.rows)) :
    ticketSerializer_validate f r = .error (.rowOutOfRange r.row f.airplane.rows) := by
  unfold ticketSerializer_validate validate_row
  rw [if_neg h]

theorem ticketSerializer_validate_of_seat_bad (f : Flight) (r : TicketReq)
    (hrow : 1 ≤ r.row ∧ r.row ≤ f.airplane.rows)
    (h : ¬(1 ≤ r.seat ∧ r.seat ≤ f.airplane.seats_in_row)) :
    ticketSerializer_validate f r = .error (.seatOutOfRange r.seat f.airplane.seats_in_row) := by
  unfold ticketSerializer_validate validate_row validate_seat
  rw [if_pos hrow, if_neg h]

theorem ticketSerializer_validate_ok_iff (f : Flight) (r : TicketReq) (t : ValidTicket) :
    ticketSerializer_validate f r = .ok t ↔
      (inBounds f r = true ∧ t = toValid f r) := by
  constructor
  · intro h
    by_cases hb : inBounds f r = true
    · rw [ticketSerializer_validate_of_inBounds f r hb] at h
      exact ⟨hb, (Except.ok.injEq _ _ ▸ h).symm⟩
    · exfalso
      rw [inBounds_iff] at hb
      by_cases hrow : 1 ≤ r.row ∧ r.row ≤ f.airplane.rows
      · have hseat : ¬(1 ≤ r.seat ∧ r.seat ≤ f.airplane.seats_in_row) := fun hs => hb ⟨hrow, hs⟩
        rw [ticketSerializer_validate_of_seat_bad f r hrow hseat] at h
        exact Except.noConfusion h
      · rw [ticketSerializer_validate_of_row_bad f r hrow] at h
        exact Except.noConfusion h
  · rintro ⟨hb, rfl⟩
    exact ticketSerializer_validate_of_inBounds f r hb

theorem ticketSerializer_validate_error_iff (f : Flight) (r : TicketReq) :
    (∃ e, ticketSerializer_validate f r = .error e) ↔ inBounds f r = false := by
  constructor
  · rintro ⟨e, he⟩
    by_contra hb
    rw [Bool.not_eq_false] at hb
    rw [ticketSerializer_validate_of_inBounds f r hb] at he
    exact Except.noConfusion he
  · intro hb
    have hb2 : ¬((1 ≤ r.row ∧ r.row ≤ f.airplane.rows)
        ∧ (1 ≤ r.seat ∧ r.seat ≤ f.airplane.seats_in_row)) := by
      rw [← inBounds_iff]; simp [hb]
    by_cases hrow : 1 ≤ r.row ∧ r.row ≤ f.airplane.rows
    · exact ⟨_, ticketSerializer_validate_of_seat_bad f r hrow (fun hs => hb2 ⟨hrow, hs⟩)⟩
    · exact ⟨_, ticketSerializer_validate_of_row_bad f r hrow⟩

theorem to_internal_of_all_inBounds (f : Flight) (reqs : List TicketReq)
    (h : ∀ r ∈ reqs, inBounds f r = true) :
    customTicketField_to_internal_value f reqs
      = .ok (reqs.map (toValid f)) := by
  induction reqs with
  | nil => rfl
  | cons r rest ih =>
    unfold customTicketField_to_internal_value
    rw [ticketSerializer_validate_of_inBounds f r (h r (by simp)),
        ih (fun x hx => h x (by simp [hx]))]
    rfl

theorem to_internal_ok_elim (f : Flight) (reqs : List TicketReq) (ts : List ValidTicket)
    (h : customTicketField_to_internal_value f reqs = .ok ts) :
    (∀ r ∈ reqs, inBounds f r = true)
      ∧ ts = reqs.map (toValid f) := by
  induction reqs generalizing ts with
  | nil =>
    refine ⟨by simp, ?_⟩
    have : ([] : List ValidTicket) = ts := by
      simpa [customTicketField_to_internal_value] using h
    simp [← this]
  | cons r rest ih =>
    unfold customTicketField_to_internal_value at h
    cases hv : ticketSerializer_validate f r <;> rw [hv] at h
    case error e => exact absurd h (by simp)
    case ok t =>
      cases hrest : customTicketField_to_internal_value f rest <;> rw [hrest] at h
      case error e => exact absurd h (by simp)
      case ok ts2 =>
        have h2 : t :: ts2 = ts := by simpa using h
        obtain ⟨hb, rfl⟩ := (ticketSerializer_validate_ok_iff f r t).mp hv
        obtain ⟨hall, rfl⟩ := ih ts2 hrest
        subst h2
        refine ⟨?_, by simp⟩
        intro x hx
        rcases List.mem_cons.mp hx with rfl | hx2
        · exact hb
        · exact hall x hx2

theorem to_internal_first_error (f : Flight) (good : List TicketReq) (bad : TicketReq)
    (rest : List TicketReq) (e : ApiError)
    (hgood : ∀ r ∈ good, inBounds f r = true)
    (hbad : ticketSerializer_validate f bad = .error e) :
    customTicketField_to_internal_value f (good ++ bad :: rest) = .error e := by
  induction good with
  | nil =>
    simp only [List.nil_append]
    unfold customTicketField_to_internal_value
    rw [hbad]
  | cons g gs ih =>
    simp only [List.cons_append]
    unfold customTicketField_to_internal_value
    rw [ticketSerializer_validate_of_inBounds f g (hgood g (by simp)),
        ih (fun x hx => hgood x (by simp [hx]))]

theorem find_duplicate_seat_eq_none_iff (seen ps : List (Int × Int)) :
    find_duplicate_seat seen ps = none ↔ (ps.Nodup ∧ ∀ p ∈ ps, p ∉ seen) := by
  induction ps generalizing seen with
  | nil => simp [find_duplicate_seat]
  | cons p rest ih =>
    unfold find_duplicate_seat
    by_cases hp : p ∈ seen
    · rw [if_pos hp]; simp [hp]
    · rw [if_neg hp, ih]
      simp only [List.nodup_cons, List.mem_cons]
      constructor
      · rintro ⟨hnd, hall⟩
        exact ⟨⟨fun hmem => hall p hmem (Or.inl rfl), hnd⟩,
          fun q hq => hq.elim (fun h hs => hp (h ▸ hs))
            (fun hq2 hs => hall q hq2 (Or.inr hs))⟩
      · rintro ⟨⟨hpr, hnd⟩, hall⟩
        exact ⟨hnd, fun q hq hmem =>
          hmem.elim (fun h => hpr (h ▸ hq)) (fun hs => hall q (Or.inr hq) hs)⟩

theorem orderSerializer_validate_of_nodup (ts : List ValidTicket)
    (h : (ts.map fun t => (t.row, t.seat)).Nodup) :
    orderSerializer_validate ts = .ok ts := by
  unfold orderSerializer_validate
  rw [(find_duplicate_seat_eq_none_iff [] _).mpr ⟨h, by simp⟩]

theorem orderSerializer_validate_ok_elim (ts ts2 : List ValidTicket)
    (h : orderSerializer_validate ts = .ok ts2) :
    ts2 = ts ∧ (ts.map fun t => (t.row, t.seat)).Nodup := by
  unfold orderSerializer_validate at h
  cases hf : find_duplicate_seat [] (ts.map fun t => (t.row, t.seat)) <;> rw [hf] at h
  case none =>
    have := ((find_duplicate_seat_eq_none_iff [] _).mp hf).1
    exact ⟨by simpa using h.symm, this⟩
  case some p => exact absurd h (by simp)

theorem orderSerializer_validate_of_dup (ts : List ValidTicket) (p : Int × Int)
    (h : find_duplicate_seat [] (ts.map fun t => (t.row, t.seat)) = some p) :
    orderSerializer_validate ts = .error (.duplicateSeat p.1 p.2) := by
  unfold orderSerializer_validate
  rw [h]

theorem sameSeatTriple_iff (a b : Ticket) :
    sameSeatTriple a b = true ↔
      (a.flightId = b.flightId ∧ a.row = b.row ∧ a.seat = b.seat) := by
  simp [sameSeatTriple, and_assoc]

theorem uniqueSeats_iff_pairwise (l : List Ticket) :
    uniqueSeats l = true ↔ l.Pairwise fun a b => sameSeatTriple a b = false := by
  induction l with
  | nil => simp [uniqueSeats]
  | cons t rest ih =>
    simp [uniqueSeats, List.pairwise_cons, ih, List.all_eq_true, and_comm]

theorem uniqueSeats_filter (l : List Ticket) (p : Ticket → Bool)
    (h : uniqueSeats l = true) : uniqueSeats (l.filter p) = true := by
  rw [uniqueSeats_iff_pairwise] at h ⊢
  exact List.Pairwise.sublist (List.filter_sublist l) h

theorem violatesUnique_eq_false_iff (existing : List Ticket) (t : Ticket) :
    violatesUnique existing t = false ↔
      ∀ e ∈ existing, sameSeatTriple e t = false := by
  simp [violatesUnique, List.any_eq_true]

theorem bulk_create_ok_append (existing new allT : List Ticket)
    (h : bulk_create existing new = .ok allT) : allT = existing ++ new := by
  induction new generalizing existing with
  | nil => simpa [bulk_create] using h.symm
  | cons t ts ih =>
    unfold bulk_create at h
    by_cases hv : violatesUnique existing t = true
    · rw [if_pos hv] at h; exact absurd h (by simp)
    · rw [if_neg hv] at h
      have := ih (existing ++ [t]) h
      simp [this]

theorem bulk_create_error_eq (existing new : List Ticket) (e : ApiError)
    (h : bulk_create existing new = .error e) : e = .integrityError := by
  induction new generalizing existing with
  | nil => exact absurd h (by simp [bulk_create])
  | cons t ts ih =>
    unfold bulk_create at h
    by_cases hv : violatesUnique existing t = true
    · rw [if_pos hv] at h; simpa using h.symm
    · rw [if_neg hv] at h; exact ih _ h

theorem bulk_create_ok_of (existing new : List Ticket)
    (hcross : ∀ t ∈ new, ∀ e ∈ existing, sameSeatTriple e t = false)
    (hpair : new.Pairwise fun a b => sameSeatTriple a b = false) :
    bulk_create existing new = .ok (existing ++ new) := by
  induction new generalizing existing with
  | nil => simp [bulk_create]
  | cons t ts ih =>
    unfold bulk_create
    rw [if_neg (by
      rw [Bool.not_eq_true, violatesUnique_eq_false_iff]
      exact fun e he => hcross t (by simp) e he)]
    have hcross2 : ∀ u ∈ ts, ∀ e ∈ existing ++ [t], sameSeatTriple e u = false := by
      intro u hu e he
      rcases List.mem_append.mp he with he2 | he2
      · exact hcross u (by simp [hu]) e he2
      · have : e = t := by simpa using he2
        subst this
        exact (List.pairwise_cons.mp hpair).1 u hu
    have := ih (existing ++ [t]) hcross2 (List.pairwise_cons.mp hpair).2
    rw [this]
    simp

theorem bulk_create_ok_elim (existing new allT : List Ticket)
    (h : bulk_create existing new = .ok allT) :
    (new.Pairwise fun a b => sameSeatTriple a b = false)
      ∧ ∀ t ∈ new, ∀ e ∈ existing, sameSeatTriple e t = false := by
  induction new generalizing existing with
  | nil => simp
  | cons t ts ih =>
    unfold bulk_create at h
    by_cases hv : violatesUnique existing t = true
    · rw [if_pos hv] at h; exact absurd h (by simp)
    · rw [if_neg hv] at h
      obtain ⟨hp, hc⟩ := ih (existing ++ [t]) h
      rw [Bool.not_eq_true, violatesUnique_eq_false_iff] at hv
      constructor
      · rw [List.pairwise_cons]
        exact ⟨fun u hu => hc u hu t (by simp), hp⟩
      · intro u hu e he
        rcases List.mem_cons.mp hu with rfl | hu2
        · exact hv e he
        · exact hc u hu2 e (by simp [he])

theorem uniqueSeats_bulk_create (existing new allT : List Ticket)
    (hu : uniqueSeats existing = true)
    (h : bulk_create existing new = .ok allT) : uniqueSeats allT = true := by
  obtain rfl := bulk_create_ok_append existing new allT h
  obtain ⟨hp, hc⟩ := bulk_create_ok_elim existing new _ h
  rw [uniqueSeats_iff_pairwise] at hu ⊢
  rw [List.pairwise_append]
  exact ⟨hu, hp, fun a ha b hb => hc b hb a ha⟩

theorem mem_conflictingSeats_iff (tickets : List Ticket) (fid : Nat)
    (requested : List (Int × Int)) (p : Int × Int) :
    p ∈ conflictingSeats requested (probeTakenSeats tickets fid requested) ↔
      (p ∈ requested ∧ hasLiveTicket tickets fid p = true) := by
  simp only [conflictingSeats, List.mem_filter]
  constructor
  · rintro ⟨hreq, hcont⟩
    refine ⟨hreq, ?_⟩
    have hmem : p ∈ probeTakenSeats tickets fid requested := by
      simpa using hcont
    simp only [probeTakenSeats, List.mem_map, List.mem_filter] at hmem
    obtain ⟨t, ⟨ht, hpred⟩, hco⟩ := hmem
    simp only [Bool.and_eq_true, beq_iff_eq] at hpred
    rw [hasLiveTicket, List.any_eq_true]
    refine ⟨t, ht, ?_⟩
    simp [hpred.1.1, ← hco]
  · rintro ⟨hreq, hlive⟩
    refine ⟨hreq, ?_⟩
    rw [hasLiveTicket, List.any_eq_true] at hlive
    obtain ⟨t, ht, heq⟩ := hlive
    simp only [Bool.and_eq_true, beq_iff_eq] at heq
    have hco : (t.row, t.seat) = p := by
      rw [heq.1.2, heq.2]
    have : p ∈ probeTakenSeats tickets fid requested := by
      simp only [probeTakenSeats, List.mem_map, List.mem_filter]
      refine ⟨t, ⟨ht, ?_⟩, hco⟩
      simp only [Bool.and_eq_true, beq_iff_eq]
      refine ⟨⟨heq.1.1, ?_⟩, ?_⟩
      · have : p.1 ∈ requested.map Prod.fst := List.mem_map_of_mem Prod.fst hreq
        rw [heq.1.2]
        simpa using this
      · have : p.2 ∈ requested.map Prod.snd := List.mem_map_of_mem Prod.snd hreq
        rw [heq.2]
        simpa using this
    simpa using this

theorem pairs_nodup_of_pairwise (flight : Flight) (oid : Nat) (td : List ValidTicket)
    (h : (td.map (mkNewTicket flight oid)).Pairwise
      fun a b => sameSeatTriple a b = false) :
    (td.map fun t => (t.row, t.seat)).Nodup := by
  rw [List.pairwise_map] at h
  rw [List.Nodup, List.pairwise_map]
  refine h.imp ?_
  intro u v huv heq
  have hs : sameSeatTriple (mkNewTicket flight oid u) (mkNewTicket flight oid v)
      = true := by
    rw [sameSeatTriple_iff]
    simp only [mkNewTicket]
    have h1 := congrArg Prod.fst heq
    have h2 := congrArg Prod.snd heq
    exact ⟨by simp, by simpa using h1, by simpa using h2⟩
  rw [huv] at hs
  exact Bool.noConfusion hs

theorem conflictingSeats_eq_nil_iff (tickets : List Ticket) (fid : Nat)
    (requested : List (Int × Int)) :
    conflictingSeats requested (probeTakenSeats tickets fid requested) = [] ↔
      ∀ p ∈ requested, hasLiveTicket tickets fid p = false := by
  rw [List.eq_nil_iff_forall_not_mem]
  constructor
  · intro h p hp
    by_contra hb
    rw [Bool.not_eq_false] at hb
    exact h p ((mem_conflictingSeats_iff _ _ _ _).mpr ⟨hp, hb⟩)
  · intro h p hp
    obtain ⟨hreq, hlive⟩ := (mem_conflictingSeats_iff _ _ _ _).mp hp
    rw [h p hreq] at hlive
    exact Bool.noConfusion hlive

theorem mkNewTicket_pairwise (flight : Flight) (oid : Nat) (td : List ValidTicket)
    (h : (td.map fun t => (t.row, t.seat)).Nodup) :
    (td.map (mkNewTicket flight oid)).Pairwise
      fun a b => sameSeatTriple a b = false := by
  rw [List.pairwise_map]
  have h2 : td.Pairwise fun u v => (u.row, u.seat) ≠ (v.row, v.seat) := by
    rw [List.Nodup, List.pairwise_map] at h
    exact h
  refine h2.imp ?_
  intro u v huv
  by_contra hb
  rw [Bool.not_eq_false, sameSeatTriple_iff] at hb
  simp only [mkNewTicket] at hb
  exact huv (by rw [hb.2.1, hb.2.2])

theorem mkNewTicket_cross (flight : Flight) (oid : Nat) (td : List ValidTicket)
    (tickets : List Ticket)
    (hfree : ∀ p ∈ requestedSeats td, hasLiveTicket tickets flight.id p = false) :
    ∀ t ∈ td.map (mkNewTicket flight oid), ∀ e ∈ tickets,
      sameSeatTriple e t = false := by
  intro t ht e he
  obtain ⟨v, hv, rfl⟩ := List.mem_map.mp ht
  by_contra hb
  rw [Bool.not_eq_false, sameSeatTriple_iff] at hb
  simp only [mkNewTicket] at hb
  have hp : (v.row, v.seat) ∈ requestedSeats td := by
    rw [requestedSeats, List.mem_dedup, List.mem_map]
    exact ⟨v, hv, rfl⟩
  have hlive : hasLiveTicket tickets flight.id (v.row, v.seat) = true := by
    rw [hasLiveTicket, List.any_eq_true]
    exact ⟨e, he, by simp [hb.1, hb.2.1, hb.2.2]⟩
  rw [hfree _ hp] at hlive
  exact Bool.noConfusion hlive

theorem new_tickets_pairs (flight : Flight) (oid : Nat) (td : List ValidTicket) :
    (td.map (mkNewTicket flight oid)).map (fun t => (t.row, t.seat))
      = td.map fun t => (t.row, t.seat) := by
  simp [List.map_map, mkNewTicket, Function.comp]

theorem orderSerializer_create_ok (db : DB) (flight : Flight) (userId : Nat)
    (td : List ValidTicket)
    (hfree : ∀ p ∈ requestedSeats td, hasLiveTicket db.tickets flight.id p = false)
    (hnodup : (td.map fun t => (t.row, t.seat)).Nodup) :
    orderSerializer_create db flight userId td =
      .ok { orders := db.orders ++
              [{ id := db.nextOrderId, flightId := flight.id, userId := userId,
                 total_price := flight.price * (td.length : Int) }],
            tickets := db.tickets ++ td.map (mkNewTicket flight db.nextOrderId),
            nextOrderId := db.nextOrderId + 1 } := by
  simp only [orderSerializer_create]
  rw [if_pos ((conflictingSeats_eq_nil_iff _ _ _).mpr hfree),
    bulk_create_ok_of db.tickets _
      (mkNewTicket_cross flight db.nextOrderId td db.tickets hfree)
      (mkNewTicket_pairwise flight db.nextOrderId td hnodup)]

theorem orderSerializer_create_conflict (db : DB) (flight : Flight) (userId : Nat)
    (td : List ValidTicket)
    (hconf : conflictingSeats (requestedSeats td)
        (probeTakenSeats db.tickets flight.id (requestedSeats td)) ≠ []) :
    orderSerializer_create db flight userId td =
      .error (.seatConflict (conflictingSeats (requestedSeats td)
        (probeTakenSeats db.tickets flight.id (requestedSeats td)))) := by
  simp only [orderSerializer_create]
  rw [if_neg hconf]

theorem orderSerializer_create_ok_elim (db : DB) (flight : Flight) (userId : Nat)
    (td : List ValidTicket) (db' : DB)
    (h : orderSerializer_create db flight userId td = .ok db') :
    db' = { orders := db.orders ++
              [{ id := db.nextOrderId, flightId := flight.id, userId := userId,
                 total_price := flight.price * (td.length : Int) }],
            tickets := db.tickets ++ td.map (mkNewTicket flight db.nextOrderId),
            nextOrderId := db.nextOrderId + 1 }
      ∧ (∀ p ∈ requestedSeats td, hasLiveTicket db.tickets flight.id p = false) := by
  simp only [orderSerializer_create] at h
  split at h
  case isTrue hc =>
    cases hb : bulk_create db.tickets (td.map (mkNewTicket flight db.nextOrderId)) <;>
      rw [hb] at h
    case error e => exact absurd h (by simp)
    case ok allT =>
      obtain rfl := bulk_create_ok_append _ _ _ hb
      exact ⟨by simpa using h.symm, (conflictingSeats_eq_nil_iff _ _ _).mp hc⟩
  case isFalse => exact absurd h (by simp)

theorem orderUpdateSerializer_update_ok (db : DB) (order : Order) (flight : Flight)
    (td : List ValidTicket)
    (hfree : ∀ p ∈ requestedSeats td,
      hasLiveTicket (db.tickets.filter fun t => t.orderId ≠ order.id) flight.id p = false)
    (hnodup : (td.map fun t => (t.row, t.seat)).Nodup) :
    orderUpdateSerializer_update db order flight td =
      .ok { orders := db.orders.map fun o =>
              if o.id = order.id then
                { o with total_price := flight.price * (td.length : Int) }
              else o,
            tickets := (db.tickets.filter fun t => t.orderId ≠ order.id)
              ++ td.map (mkNewTicket flight order.id),
            nextOrderId := db.nextOrderId } := by
  have hfree2 := hfree
  simp only [requestedSeats] at hfree2
  simp only [orderUpdateSerializer_update, new_tickets_pairs, List.length_map]
  rw [if_pos ((conflictingSeats_eq_nil_iff _ _ _).mpr hfree2),
    bulk_create_ok_of _ _
      (mkNewTicket_cross flight order.id td _ hfree)
      (mkNewTicket_pairwise flight order.id td hnodup)]

theorem orderUpdateSerializer_update_ok_elim (db : DB) (order : Order)
    (flight : Flight) (td : List ValidTicket) (db' : DB)
    (h : orderUpdateSerializer_update db order flight td = .ok db') :
    db' = { orders := db.orders.map fun o =>
              if o.id = order.id then
                { o with total_price := flight.price * (td.length : Int) }
              else o,
            tickets := (db.tickets.filter fun t => t.orderId ≠ order.id)
              ++ td.map (mkNewTicket flight order.id),
            nextOrderId := db.nextOrderId }
      ∧ (∀ p ∈ requestedSeats td,
          hasLiveTicket (db.tickets.filter fun t => t.orderId ≠ order.id)
            flight.id p = false)
      ∧ (td.map fun t => (t.row, t.seat)).Nodup := by
  simp only [orderUpdateSerializer_update, new_tickets_pairs, List.length_map] at h
  split at h
  case isTrue hc =>
    cases hb : bulk_create (db.tickets.filter fun t => t.orderId ≠ order.id)
        (td.map (mkNewTicket flight order.id)) <;> rw [hb] at h
    case error e => exact absurd h (by simp)
    case ok allT =>
      obtain rfl := bulk_create_ok_append _ _ _ hb
      refine ⟨by simpa using h.symm, ?_, ?_⟩
      · have h3 := (conflictingSeats_eq_nil_iff _ _ _).mp hc
        simpa only [requestedSeats] using h3
      · exact pairs_nodup_of_pairwise flight order.id td
          (bulk_create_ok_elim _ _ _ hb).1
  case isFalse => exact absurd h (by simp)

theorem valid_pairs_eq (f : Flight) (reqs : List TicketReq) :
    ((reqs.map (toValid f)).map fun t => (t.row, t.seat)) = reqPairs reqs := by
  simp [List.map_map, toValid, reqPairs, Function.comp]

theorem mem_requestedSeats_toValid (f : Flight) (reqs : List TicketReq) (p : Int × Int) :
    p ∈ requestedSeats (reqs.map (toValid f)) ↔ p ∈ reqPairs reqs := by
  rw [requestedSeats, List.mem_dedup, valid_pairs_eq]

theorem createOrderFlow_ok (db : DB) (flight : Flight) (userId : Nat)
    (reqs : List TicketReq)
    (hall : ∀ r ∈ reqs, inBounds flight r = true)
    (hnd : (reqPairs reqs).Nodup)
    (hfree : ∀ p ∈ reqPairs reqs, hasLiveTicket db.tickets flight.id p = false) :
    createOrderFlow db flight userId reqs =
      .ok { orders := db.orders ++
              [{ id := db.nextOrderId, flightId := flight.id, userId := userId,
                 total_price := flight.price * (reqs.length : Int) }],
            tickets := db.tickets
              ++ (reqs.map (toValid flight)).map (mkNewTicket flight db.nextOrderId),
            nextOrderId := db.nextOrderId + 1 } := by
  unfold createOrderFlow
  rw [to_internal_of_all_inBounds flight reqs hall]
  dsimp only
  rw [orderSerializer_validate_of_nodup (reqs.map (toValid flight))
      (by rw [valid_pairs_eq]; exact hnd)]
  dsimp only
  rw [orderSerializer_create_ok db flight userId _
      (fun p hp => hfree p ((mem_requestedSeats_toValid flight reqs p).mp hp))
      (by rw [valid_pairs_eq]; exact hnd)]
  simp [List.length_map]

theorem createOrderFlow_ok_elim (db : DB) (flight : Flight) (userId : Nat)
    (reqs : List TicketReq) (db' : DB)
    (h : createOrderFlow db flight userId reqs = .ok db') :
    (∀ r ∈ reqs, inBounds flight r = true)
      ∧ (reqPairs reqs).Nodup
      ∧ (∀ p ∈ reqPairs reqs, hasLiveTicket db.tickets flight.id p = false)
      ∧ db' =
        { orders := db.orders ++
            [{ id := db.nextOrderId, flightId := flight.id, userId := userId,
               total_price := flight.price * (reqs.length : Int) }],
          tickets := db.tickets
            ++ (reqs.map (toValid flight)).map (mkNewTicket flight db.nextOrderId),
          nextOrderId := db.nextOrderId + 1 } := by
  unfold createOrderFlow at h
  cases hti : customTicketField_to_internal_value flight reqs <;>
    rw [hti] at h <;> dsimp only at h
  case error e => exact absurd h (by simp)
  case ok ts =>
    cases hval : orderSerializer_validate ts <;> rw [hval] at h <;> dsimp only at h
    case error e => exact absurd h (by simp)
    case ok ts2 =>
      obtain ⟨hall, rfl⟩ := to_internal_ok_elim _ _ _ hti
      obtain ⟨rfl, hnd⟩ := orderSerializer_validate_ok_elim _ _ hval
      obtain ⟨hdb, hfree⟩ := orderSerializer_create_ok_elim _ _ _ _ _ h
      rw [valid_pairs_eq] at hnd
      refine ⟨hall, hnd, fun p hp => ?_, by simp [hdb, List.length_map]⟩
      exact hfree p ((mem_requestedSeats_toValid flight reqs p).mpr hp)

theorem createOrderFlow_error_of_taken (db : DB) (flight : Flight) (userId : Nat)
    (reqs : List TicketReq) (p : Int × Int)
    (hp : p ∈ reqPairs reqs)
    (hlive : hasLiveTicket db.tickets flight.id p = true) :
    ∃ e, createOrderFlow db flight userId reqs = .error e := by
  cases hflow : createOrderFlow db flight userId reqs
  case error e => exact ⟨e, rfl⟩
  case ok db' =>
    obtain ⟨_, _, hfree, _⟩ := createOrderFlow_ok_elim _ _ _ _ _ hflow
    rw [hfree p hp] at hlive
    exact Bool.noConfusion hlive

theorem hasLiveTicketOther_iff_filter (tickets : List Ticket) (fid oid : Nat)
    (p : Int × Int) :
    hasLiveTicketOther tickets fid oid p = true ↔
      hasLiveTicket (tickets.filter fun t => t.orderId ≠ oid) fid p = true := by
  simp only [hasLiveTicketOther, hasLiveTicket, List.any_eq_true, List.mem_filter]
  constructor
  · rintro ⟨t, ht, hc⟩
    simp only [Bool.and_eq_true, beq_iff_eq, bne_iff_ne] at hc
    exact ⟨t, ⟨ht, by simp [hc.2]⟩, by simp [hc.1.1.1, hc.1.1.2, hc.1.2]⟩
  · rintro ⟨t, ⟨ht, hne⟩, hc⟩
    simp only [Bool.and_eq_true, beq_iff_eq] at hc
    refine ⟨t, ht, ?_⟩
    simp only [Bool.and_eq_true, beq_iff_eq, bne_iff_ne]
    exact ⟨⟨⟨hc.1.1, hc.1.2⟩, hc.2⟩, by simpa using hne⟩

theorem hasLiveTicketOther_eq_filter (tickets : List Ticket) (fid oid : Nat)
    (p : Int × Int) :
    hasLiveTicketOther tickets fid oid p
      = hasLiveTicket (tickets.filter fun t => t.orderId ≠ oid) fid p := by
  rw [Bool.eq_iff_iff]
  exact hasLiveTicketOther_iff_filter tickets fid oid p

theorem updateOrderFlow_ok (db : DB) (order : Order) (flight : Flight)
    (reqs : List TicketReq)
    (hall : ∀ r ∈ reqs, inBounds flight r = true)
    (hnd : (reqPairs reqs).Nodup)
    (hfree : ∀ p ∈ reqPairs reqs,
      hasLiveTicket (db.tickets.filter fun t => t.orderId ≠ order.id)
        flight.id p = false) :
    updateOrderFlow db order flight reqs =
      .ok { orders := db.orders.map fun o =>
              if o.id = order.id then
                { o with total_price := flight.price * (reqs.length : Int) }
              else o,
            tickets := (db.tickets.filter fun t => t.orderId ≠ order.id)
              ++ (reqs.map (toValid flight)).map (mkNewTicket flight order.id),
            nextOrderId := db.nextOrderId } := by
  unfold updateOrderFlow
  rw [to_internal_of_all_inBounds flight reqs hall]
  dsimp only
  rw [orderUpdateSerializer_update_ok db order flight _
      (fun p hp => hfree p ((mem_requestedSeats_toValid flight reqs p).mp hp))
      (by rw [valid_pairs_eq]; exact hnd)]
  simp [List.length_map]

theorem updateOrderFlow_ok_elim (db : DB) (order : Order) (flight : Flight)
    (reqs : List TicketReq) (db' : DB)
    (h : updateOrderFlow db order flight reqs = .ok db') :
    (∀ r ∈ reqs, inBounds flight r = true)
      ∧ (∀ p ∈ reqPairs reqs,
          hasLiveTicket (db.tickets.filter fun t => t.orderId ≠ order.id)
            flight.id p = false)
      ∧ (reqPairs reqs).Nodup
      ∧ db' =
        { orders := db.orders.map fun o =>
            if o.id = order.id then
              { o with total_price := flight.price * (reqs.length : Int) }
            else o,
          tickets := (db.tickets.filter fun t => t.orderId ≠ order.id)
            ++ (reqs.map (toValid flight)).map (mkNewTicket flight order.id),
          nextOrderId := db.nextOrderId } := by
  unfold updateOrderFlow at h
  cases hti : customTicketField_to_internal_value flight reqs <;>
    rw [hti] at h <;> dsimp only at h
  case error e => exact absurd h (by simp)
  case ok ts =>
    obtain ⟨hall, rfl⟩ := to_internal_ok_elim _ _ _ hti
    obtain ⟨hdb, hfree, hnd⟩ := orderUpdateSerializer_update_ok_elim _ _ _ _ _ h
    refine ⟨hall,
      fun p hp => hfree p ((mem_requestedSeats_toValid flight reqs p).mpr hp),
      ?_, by simp [hdb, List.length_map]⟩
    rwa [valid_pairs_eq] at hnd

theorem updateOrderFlow_error_of_other (db : DB) (order : Order) (flight : Flight)
    (reqs : List TicketReq) (p : Int × Int)
    (hp : p ∈ reqPairs reqs)
    (hlive : hasLiveTicketOther db.tickets flight.id order.id p = true) :
    ∃ e, updateOrderFlow db order flight reqs = .error e := by
  cases hflow : updateOrderFlow db order flight reqs
  case error e => exact ⟨e, rfl⟩
  case ok db' =>
    obtain ⟨_, hfree, _, _⟩ := updateOrderFlow_ok_elim _ _ _ _ _ hflow
    have h2 := (hasLiveTicketOther_iff_filter db.tickets flight.id order.id p).mp hlive
    rw [hfree p hp] at h2
    exact Bool.noConfusion h2

theorem find_duplicate_seat_of_not_nodup (ps : List (Int × Int))
    (h : ¬ ps.Nodup) :
    ∃ p, find_duplicate_seat [] ps = some p := by
  cases hf : find_duplicate_seat [] ps
  case none => exact absurd ((find_duplicate_seat_eq_none_iff [] ps).mp hf).1 h
  case some p => exact ⟨p, rfl⟩

theorem createOrderFlow_dup (db : DB) (flight : Flight) (userId : Nat)
    (reqs : List TicketReq) (p : Int × Int)
    (hall : ∀ r ∈ reqs, inBounds flight r = true)
    (hdup : find_duplicate_seat [] (reqPairs reqs) = some p) :
    createOrderFlow db flight userId reqs = .error (.duplicateSeat p.1 p.2) := by
  unfold createOrderFlow
  rw [to_internal_of_all_inBounds flight reqs hall]
  dsimp only
  rw [orderSerializer_validate_of_dup _ p (by rw [valid_pairs_eq]; exact hdup)]

theorem updateOrderFlow_dup_integrity (db : DB) (order : Order) (flight : Flight)
    (reqs : List TicketReq)
    (hall : ∀ r ∈ reqs, inBounds flight r = true)
    (hdup : ¬ (reqPairs reqs).Nodup)
    (hfree : ∀ p ∈ reqPairs reqs,
      hasLiveTicket (db.tickets.filter fun t => t.orderId ≠ order.id)
        flight.id p = false) :
    updateOrderFlow db order flight reqs = .error .integrityError := by
  unfold updateOrderFlow
  rw [to_internal_of_all_inBounds flight reqs hall]
  dsimp only
  simp only [orderUpdateSerializer_update, new_tickets_pairs, valid_pairs_eq]
  rw [if_pos ((conflictingSeats_eq_nil_iff _ _ _).mpr
    (fun p hp => hfree p (List.mem_dedup.mp hp)))]
  cases hb : bulk_create (db.tickets.filter fun t => t.orderId ≠ order.id)
      ((reqs.map (toValid flight)).map (mkNewTicket flight order.id))
  case error e =>
    obtain rfl := bulk_create_error_eq _ _ _ hb
    rfl
  case ok allT =>
    exfalso
    obtain ⟨hpair, _⟩ := bulk_create_ok_elim _ _ _ hb
    apply hdup
    have := pairs_nodup_of_pairwise flight order.id (reqs.map (toValid flight)) hpair
    rwa [valid_pairs_eq] at this

theorem createOrderFlow_preserves_unique (db : DB) (flight : Flight) (userId : Nat)
    (reqs : List TicketReq) (db' : DB)
    (hu : uniqueSeats db.tickets = true)
    (h : createOrderFlow db flight userId reqs = .ok db') :
    uniqueSeats db'.tickets = true := by
  obtain ⟨hall, hnd, hfree, rfl⟩ := createOrderFlow_ok_elim _ _ _ _ _ h
  exact uniqueSeats_bulk_create _ _ _ hu
    (bulk_create_ok_of db.tickets _
      (mkNewTicket_cross flight db.nextOrderId _ db.tickets
        (fun p hp => hfree p ((mem_requestedSeats_toValid flight reqs p).mp hp)))
      (mkNewTicket_pairwise flight db.nextOrderId _
        (by rw [valid_pairs_eq]; exact hnd)))

theorem updateOrderFlow_preserves_unique (db : DB) (order : Order) (flight : Flight)
    (reqs : List TicketReq) (db' : DB)
    (hu : uniqueSeats db.tickets = true)
    (h : updateOrderFlow db order flight reqs = .ok db') :
    uniqueSeats db'.tickets = true := by
  obtain ⟨hall, hfree, hnd, rfl⟩ := updateOrderFlow_ok_elim _ _ _ _ _ h
  exact uniqueSeats_bulk_create _ _ _ (uniqueSeats_filter _ _ hu)
    (bulk_create_ok_of _ _
      (mkNewTicket_cross flight order.id _ _
        (fun p hp => hfree p ((mem_requestedSeats_toValid flight reqs p).mp hp)))
      (mkNewTicket_pairwise flight order.id _
        (by rw [valid_pairs_eq]; exact hnd)))

/-- C1: for every flight, no two live tickets share `(flight, row, seat)`:
every ticket-creating operation (order create and order replace, each run
inside its transaction) preserves this uniqueness invariant over the
ticket store. -/
theorem claim_C1_uniqueness_invariant (db : DB) (order : Order) (flight : Flight)
    (userId : Nat) (reqs reqs2 : List TicketReq)
    (h : uniqueSeats db.tickets = true) :
    uniqueSeats (createOrderTxn db flight userId reqs).1.tickets = true
      ∧ uniqueSeats (updateOrderTxn db order flight reqs2).1.tickets = true := by
  constructor
  · unfold createOrderTxn runTxn
    cases hflow : createOrderFlow db flight userId reqs
    case error e => exact h
    case ok db' => exact createOrderFlow_preserves_unique _ _ _ _ _ h hflow
  · unfold updateOrderTxn runTxn
    cases hflow : updateOrderFlow db order flight reqs2
    case error e => exact h
    case ok db' => exact updateOrderFlow_preserves_unique _ _ _ _ _ h hflow

/-- Witness for C1: a concrete store satisfying the invariant, with one
creation and one replacement applied to it. -/
theorem claim_C1_uniqueness_invariant_witness :
    uniqueSeats dbOne.tickets = true
      ∧ (uniqueSeats (createOrderTxn dbOne fTen 8 [mkReq 2 2]).1.tickets = true
          ∧ uniqueSeats (updateOrderTxn dbOne ordOne fTen [mkReq 1 2]).1.tickets
            = true) :=
  ⟨by decide,
    claim_C1_uniqueness_invariant dbOne ordOne fTen 8 [mkReq 2 2] [mkReq 1 2]
      (by decide)⟩

theorem runTxn_ok_iff (db db' : DB) (r : Except ApiError DB) :
    runTxn db r = (db', none) ↔ r = .ok db' := by
  unfold runTxn
  cases r <;> simp

/-- C2: order creation is all-or-nothing: whenever the operation reports an
error the database is unchanged (zero new Ticket rows, no new Order row);
any requested pair with a live ticket on the flight forces an error, as
does any out-of-range entry or in-batch duplicate; and when the batch is
well-formed and all pairs are free, exactly one ticket per pair is
inserted under one new order. -/
theorem claim_C2_create_all_or_nothing (db : DB) (flight : Flight) (userId : Nat)
    (reqs : List TicketReq) :
    ((createOrderTxn db flight userId reqs).2.isSome = true →
        (createOrderTxn db flight userId reqs).1 = db)
    ∧ ((∃ p ∈ reqPairs reqs, hasLiveTicket db.tickets flight.id p = true) →
        (createOrderTxn db flight userId reqs).2.isSome = true)
    ∧ ((∃ r ∈ reqs, inBounds flight r = false) →
        (createOrderTxn db flight userId reqs).2.isSome = true)
    ∧ (¬(reqPairs reqs).Nodup →
        (createOrderTxn db flight userId reqs).2.isSome = true)
    ∧ ((∀ r ∈ reqs, inBounds flight r = true) → (reqPairs reqs).Nodup →
        (∀ p ∈ reqPairs reqs, hasLiveTicket db.tickets flight.id p = false) →
        createOrderTxn db flight userId reqs =
          ({ orders := db.orders ++
              [{ id := db.nextOrderId, flightId := flight.id, userId := userId,
                 total_price := flight.price * (reqs.length : Int) }],
             tickets := db.tickets
               ++ (reqs.map (toValid flight)).map (mkNewTicket flight db.nextOrderId),
             nextOrderId := db.nextOrderId + 1 }, none)) := by
  refine ⟨?_, ?_, ?_, ?_, ?_⟩
  · unfold createOrderTxn runTxn
    cases hflow : createOrderFlow db flight userId reqs
    case error e => intro _; rfl
    case ok db' => intro hs; exact absurd hs (by simp)
  · rintro ⟨p, hp, hlive⟩
    obtain ⟨e, he⟩ := createOrderFlow_error_of_taken db flight userId reqs p hp hlive
    unfold createOrderTxn runTxn
    rw [he]
    rfl
  · rintro ⟨r, hr, hbad⟩
    unfold createOrderTxn runTxn
    cases hflow : createOrderFlow db flight userId reqs
    case error e => rfl
    case ok db' =>
      obtain ⟨hall, _, _, _⟩ := createOrderFlow_ok_elim _ _ _ _ _ hflow
      rw [hall r hr] at hbad
      exact Bool.noConfusion hbad
  · intro hdup
    unfold createOrderTxn runTxn
    cases hflow : createOrderFlow db flight userId reqs
    case error e => rfl
    case ok db' =>
      obtain ⟨_, hnd, _, _⟩ := createOrderFlow_ok_elim _ _ _ _ _ hflow
      exact absurd hnd hdup
  · intro hall hnd hfree
    unfold createOrderTxn runTxn
    rw [createOrderFlow_ok db flight userId reqs hall hnd hfree]

/-- Witness for C2: on `dbOne`, requesting the taken seat (1,1) reports an
error, and a free two-seat batch succeeds with one ticket per pair. -/
theorem claim_C2_create_all_or_nothing_witness :
    ((createOrderTxn dbOne fTen 8 [mkReq 1 1]).2.isSome = true
        ∧ (createOrderTxn dbOne fTen 8 [mkReq 1 1]).1 = dbOne)
      ∧ createOrderTxn dbOne fTen 8 [mkReq 2 2, mkReq 2 3] =
          ({ orders := dbOne.orders ++
              [{ id := dbOne.nextOrderId, flightId := fTen.id, userId := 8,
                 total_price := fTen.price
                   * (([mkReq 2 2, mkReq 2 3] : List TicketReq).length : Int) }],
             tickets := dbOne.tickets
               ++ (([mkReq 2 2, mkReq 2 3] : List TicketReq).map (toValid fTen)).map
                   (mkNewTicket fTen dbOne.nextOrderId),
             nextOrderId := dbOne.nextOrderId + 1 }, none) :=
  ⟨⟨(claim_C2_create_all_or_nothing dbOne fTen 8 [mkReq 1 1]).2.1 (by decide),
    (claim_C2_create_all_or_nothing dbOne fTen 8 [mkReq 1 1]).1
      ((claim_C2_create_all_or_nothing dbOne fTen 8 [mkReq 1 1]).2.1 (by decide))⟩,
   (claim_C2_create_all_or_nothing dbOne fTen 8 [mkReq 2 2, mkReq 2 3]).2.2.2.2
     (by decide) (by decide) (by decide)⟩

/-- C3: order replace is atomic with rollback: if a requested pair is held
by a different order, the replace fails and the database — including the
order's original tickets — is left exactly as before; the order's own
just-deleted seats do not self-conflict: when every requested pair is
free or held only by this very order (and the batch is well-formed), the
replace succeeds. -/
theorem claim_C3_replace_atomic_rollback (db : DB) (order : Order)
    (flight : Flight) (reqs : List TicketReq) :
    ((∃ p ∈ reqPairs reqs,
        hasLiveTicketOther db.tickets flight.id order.id p = true) →
        (updateOrderTxn db order flight reqs).1 = db
          ∧ (updateOrderTxn db order flight reqs).2.isSome = true)
    ∧ ((∀ r ∈ reqs, inBounds flight r = true) → (reqPairs reqs).Nodup →
        (∀ p ∈ reqPairs reqs,
          hasLiveTicketOther db.tickets flight.id order.id p = false) →
        updateOrderTxn db order flight reqs =
          ({ orders := db.orders.map fun o =>
              if o.id = order.id then
                { o with total_price := flight.price * (reqs.length : Int) }
              else o,
             tickets := (db.tickets.filter fun t => t.orderId ≠ order.id)
               ++ (reqs.map (toValid flight)).map (mkNewTicket flight order.id),
             nextOrderId := db.nextOrderId }, none)) := by
  constructor
  · rintro ⟨p, hp, hlive⟩
    obtain ⟨e, he⟩ := updateOrderFlow_error_of_other db order flight reqs p hp hlive
    unfold updateOrderTxn runTxn
    rw [he]
    exact ⟨rfl, rfl⟩
  · intro hall hnd hfree
    unfold updateOrderTxn runTxn
    rw [updateOrderFlow_ok db order flight reqs hall hnd
      (fun p hp => by
        rw [← hasLiveTicketOther_eq_filter]
        exact hfree p hp)]

/-- Witness for C3: in a store with two orders, rebooking order 1 onto
order 2's seat fails leaving the store untouched, while rebooking order 1
onto its own seat plus a free one succeeds. -/
theorem claim_C3_replace_atomic_rollback_witness :
    ((updateOrderTxn dbTwo ordOne fTen [mkReq 2 2]).1 = dbTwo
        ∧ (updateOrderTxn dbTwo ordOne fTen [mkReq 2 2]).2.isSome = true)
      ∧ updateOrderTxn dbTwo ordOne fTen [mkReq 1 1, mkReq 1 2] =
          ({ orders := dbTwo.orders.map fun o =>
              if o.id = ordOne.id then
                { o with total_price := fTen.price
                    * (([mkReq 1 1, mkReq 1 2] : List TicketReq).length : Int) }
              else o,
             tickets := (dbTwo.tickets.filter fun t => t.orderId ≠ ordOne.id)
               ++ (([mkReq 1 1, mkReq 1 2] : List TicketReq).map (toValid fTen)).map
                   (mkNewTicket fTen ordOne.id),
             nextOrderId := dbTwo.nextOrderId }, none) :=
  ⟨(claim_C3_replace_atomic_rollback dbTwo ordOne fTen [mkReq 2 2]).1 (by decide),
   (claim_C3_replace_atomic_rollback dbTwo ordOne fTen [mkReq 1 1, mkReq 1 2]).2
     (by decide) (by decide) (by decide)⟩

/-- C4: a seat request fails the per-ticket validation with an
out-of-range error iff its row is outside [1, airplane.rows] or its seat
is outside [1, airplane.seats_in_row]; the checks are exactly these two
closed intervals and the error names the offending value with its exact
bound; the check is pure — validating the same request twice gives the
same result both times. -/
theorem claim_C4_bounds_check (flight : Flight) (req : TicketReq) :
    ((∃ e, ticketSerializer_validate flight req = .error e) ↔
      (¬(1 ≤ req.row ∧ req.row ≤ flight.airplane.rows)
        ∨ ¬(1 ≤ req.seat ∧ req.seat ≤ flight.airplane.seats_in_row)))
    ∧ (¬(1 ≤ req.row ∧ req.row ≤ flight.airplane.rows) →
        ticketSerializer_validate flight req
          = .error (.rowOutOfRange req.row flight.airplane.rows))
    ∧ ((1 ≤ req.row ∧ req.row ≤ flight.airplane.rows) →
        ¬(1 ≤ req.seat ∧ req.seat ≤ flight.airplane.seats_in_row) →
        ticketSerializer_validate flight req
          = .error (.seatOutOfRange req.seat flight.airplane.seats_in_row))
    ∧ ticketSerializer_validate flight req
        = ticketSerializer_validate flight req := by
  refine ⟨?_, ticketSerializer_validate_of_row_bad flight req,
    ticketSerializer_validate_of_seat_bad flight req, rfl⟩
  rw [ticketSerializer_validate_error_iff]
  constructor
  · intro hb
    have hn : ¬((1 ≤ req.row ∧ req.row ≤ flight.airplane.rows)
        ∧ (1 ≤ req.seat ∧ req.seat ≤ flight.airplane.seats_in_row)) := by
      rw [← inBounds_iff]
      simp [hb]
    exact not_and_or.mp hn
  · intro h
    by_contra hb
    rw [Bool.not_eq_false] at hb
    exact (not_and_or.mpr h) ((inBounds_iff flight req).mp hb)

/-- Witness for C4: the request (11,1) on a 10-row airplane is out of
range and yields exactly the row error carrying the bound 10. -/
theorem claim_C4_bounds_check_witness :
    (¬(1 ≤ (mkReq 11 1).row ∧ (mkReq 11 1).row ≤ fTen.airplane.rows))
      ∧ ticketSerializer_validate fTen (mkReq 11 1)
          = .error (.rowOutOfRange 11 10) :=
  ⟨by decide, (claim_C4_bounds_check fTen (mkReq 11 1)).2.1 (by decide)⟩

/-- C5 counterexample: submitting the duplicate batch [(2,2),(2,2)] to
order replace does not fail with a duplicate-seat validation error: it
reaches the database and fails with the unique-constraint integrity
error. (Order replace performs no batch-level duplicate check; and even
order create's duplicate error carries no batch index.) -/
theorem claim_C5_counterexample :
    updateOrderFlow dbOne ordOne fTen [mkReq 2 2, mkReq 2 2]
        = .error .integrityError
      ∧ (ApiError.integrityError ≠ .duplicateSeat 2 2) :=
  ⟨rfl, by decide⟩

/-- C5 (amended): a batch containing a repeated (row, seat) pair creates
no tickets on either path, but the failures differ: order create fails
with a duplicate-seat validation error naming the row and seat of the
first duplicate detected (no batch index is reported), while order
replace has no duplicate-seat validation and the duplicate batch (when
in range and conflict-free) fails with the database integrity error from
the unique constraint during bulk insert; both transactions roll back. -/
theorem claim_C5_duplicate_batch (db : DB) (order : Order) (flight : Flight)
    (userId : Nat) (reqs : List TicketReq) (p : Int × Int) :
    ((∀ r ∈ reqs, inBounds flight r = true) →
      find_duplicate_seat [] (reqPairs reqs) = some p →
      createOrderTxn db flight userId reqs
        = (db, some (.duplicateSeat p.1 p.2)))
    ∧ ((∀ r ∈ reqs, inBounds flight r = true) →
      ¬(reqPairs reqs).Nodup →
      (∀ q ∈ reqPairs reqs,
        hasLiveTicket (db.tickets.filter fun t => t.orderId ≠ order.id)
          flight.id q = false) →
      updateOrderTxn db order flight reqs = (db, some .integrityError)) := by
  constructor
  · intro hall hdup
    unfold createOrderTxn runTxn
    rw [createOrderFlow_dup db flight userId reqs p hall hdup]
  · intro hall hdup hfree
    unfold updateOrderTxn runTxn
    rw [updateOrderFlow_dup_integrity db order flight reqs hall hdup hfree]

/-- Witness for C5 (amended): the duplicate batch [(2,2),(2,2)] on
`dbOne`: create reports the duplicate pair (2,2) and leaves the store
unchanged; replace reports the integrity error and leaves the store
unchanged. -/
theorem claim_C5_duplicate_batch_witness :
    createOrderTxn dbOne fTen 8 [mkReq 2 2, mkReq 2 2]
        = (dbOne, some (.duplicateSeat 2 2))
      ∧ updateOrderTxn dbOne ordOne fTen [mkReq 2 2, mkReq 2 2]
        = (dbOne, some .integrityError) :=
  ⟨(claim_C5_duplicate_batch dbOne ordOne fTen 8
      [mkReq 2 2, mkReq 2 2] (2, 2)).1 (by decide) (by decide),
   (claim_C5_duplicate_batch dbOne ordOne fTen 8
      [mkReq 2 2, mkReq 2 2] (2, 2)).2 (by decide) (by decide) (by decide)⟩

/-- C7 counterexample: the batch [(11,1),(12,1)] on the 10×10 airplane
has two out-of-range entries, yet batch validation returns exactly the
same single error as the one-problem batch [(11,1)] — it names only the
first offending entry and is not keyed by batch index, so it cannot be
listing every problem found. -/
theorem claim_C7_counterexample :
    customTicketField_to_internal_value fTen [mkReq 11 1, mkReq 12 1]
        = .error (.rowOutOfRange 11 10)
      ∧ customTicketField_to_internal_value fTen [mkReq 11 1]
        = .error (.rowOutOfRange 11 10)
      ∧ inBounds fTen (mkReq 12 1) = false :=
  ⟨rfl, rfl, by decide⟩

/-- C7 (amended): batch validation is fail-fast rather than accumulating:
when every entry before some position is in bounds and that entry fails
its bounds check with error e, the whole batch fails with exactly e — an
error describing only that first offending entry (its value and bound,
no batch index) — independently of everything after it. -/
theorem claim_C7_first_error_only (f : Flight) (good : List TicketReq)
    (bad : TicketReq) (rest rest2 : List TicketReq) (e : ApiError)
    (hgood : ∀ r ∈ good, inBounds f r = true)
    (hbad : ticketSerializer_validate f bad = .error e) :
    customTicketField_to_internal_value f (good ++ bad :: rest) = .error e
      ∧ customTicketField_to_internal_value f (good ++ bad :: rest)
        = customTicketField_to_internal_value f (good ++ bad :: rest2) := by
  refine ⟨to_internal_first_error f good bad rest e hgood hbad, ?_⟩
  rw [to_internal_first_error f good bad rest e hgood hbad,
    to_internal_first_error f good bad rest2 e hgood hbad]

/-- Witness for C7 (amended): a good entry (1,1) followed by the bad
entry (11,1): the batch error is the row error of (11,1), whatever
follows it. -/
theorem claim_C7_first_error_only_witness :
    (∀ r ∈ [mkReq 1 1], inBounds fTen r = true)
      ∧ ticketSerializer_validate fTen (mkReq 11 1)
          = .error (.rowOutOfRange 11 10)
      ∧ (customTicketField_to_internal_value fTen
            ([mkReq 1 1] ++ mkReq 11 1 :: [mkReq 12 1])
          = .error (.rowOutOfRange 11 10)
        ∧ customTicketField_to_internal_value fTen
            ([mkReq 1 1] ++ mkReq 11 1 :: [mkReq 12 1])
          = customTicketField_to_internal_value fTen
            ([mkReq 1 1] ++ mkReq 11 1 :: [])) :=
  ⟨by decide, rfl,
    claim_C7_first_error_only fTen [mkReq 1 1] (mkReq 11 1) [mkReq 12 1] []
      (.rowOutOfRange 11 10) (by decide) rfl⟩

/-- C6: after every successful order create and every successful order
replace, the affected order's total_price equals flight.price times the
number of tickets belonging to that order in the store, and each of that
order's tickets carries price = flight.price. (For create, the order id
`db.nextOrderId` must be fresh in the ticket table.) -/
theorem claim_C6_total_price (db : DB) (order : Order) (flight : Flight)
    (userId : Nat) (reqs reqs2 : List TicketReq) (db1 db2 : DB) :
    (createOrderTxn db flight userId reqs = (db1, none) →
        db.tickets.all (fun t => t.orderId ≠ db.nextOrderId) = true →
        ∃ o ∈ db1.orders, o.id = db.nextOrderId
          ∧ o.total_price = flight.price
              * ((db1.tickets.filter fun t => t.orderId = o.id).length : Int)
          ∧ ∀ t ∈ db1.tickets, t.orderId = o.id → t.price = flight.price)
    ∧ (updateOrderTxn db order flight reqs2 = (db2, none) →
        order ∈ db.orders →
        ∃ o ∈ db2.orders, o.id = order.id
          ∧ o.total_price = flight.price
              * ((db2.tickets.filter fun t => t.orderId = o.id).length : Int)
          ∧ ∀ t ∈ db2.tickets, t.orderId = o.id → t.price = flight.price) := by
  constructor
  · intro htxn hfresh
    rw [createOrderTxn, runTxn_ok_iff] at htxn
    obtain ⟨hall, hnd, hfree, rfl⟩ := createOrderFlow_ok_elim _ _ _ _ _ htxn
    refine ⟨{ id := db.nextOrderId, flightId := flight.id, userId := userId,
              total_price := flight.price * (reqs.length : Int) },
      by simp, rfl, ?_, ?_⟩
    · dsimp only
      have hfilter : ((db.tickets
            ++ (reqs.map (toValid flight)).map (mkNewTicket flight db.nextOrderId)).filter
          fun t => t.orderId = db.nextOrderId)
          = (reqs.map (toValid flight)).map (mkNewTicket flight db.nextOrderId) := by
        rw [List.filter_append]
        have h1 : (db.tickets.filter fun t => t.orderId = db.nextOrderId) = [] := by
          rw [List.filter_eq_nil_iff]
          intro t htmem
          have h2 := (List.all_eq_true.mp hfresh) t htmem
          simpa using h2
        have h3 : ((reqs.map (toValid flight)).map
              (mkNewTicket flight db.nextOrderId)).filter
            (fun t => t.orderId = db.nextOrderId)
            = (reqs.map (toValid flight)).map (mkNewTicket flight db.nextOrderId) := by
          rw [List.filter_eq_self]
          intro t htmem
          obtain ⟨v, hv, rfl⟩ := List.mem_map.mp htmem
          simp [mkNewTicket]
        rw [h1, h3, List.nil_append]
      rw [hfilter]
      simp [List.length_map]
    · intro t ht hto
      rcases List.mem_append.mp ht with hold | hnew
      · exfalso
        have h2 := (List.all_eq_true.mp hfresh) t hold
        simp [hto] at h2
      · obtain ⟨v, hv, rfl⟩ := List.mem_map.mp hnew
        rfl
  · intro htxn hord
    rw [updateOrderTxn, runTxn_ok_iff] at htxn
    obtain ⟨hall, hfree, hnd, rfl⟩ := updateOrderFlow_ok_elim _ _ _ _ _ htxn
    refine ⟨{ order with total_price := flight.price * (reqs2.length : Int) },
      ?_, rfl, ?_, ?_⟩
    · have h2 := List.mem_map_of_mem (fun o =>
        if o.id = order.id then
          { o with total_price := flight.price * (reqs2.length : Int) }
        else o) hord
      simpa using h2
    · dsimp only
      have hfilter : (((db.tickets.filter fun t => t.orderId ≠ order.id)
            ++ (reqs2.map (toValid flight)).map (mkNewTicket flight order.id)).filter
          fun t => t.orderId = order.id)
          = (reqs2.map (toValid flight)).map (mkNewTicket flight order.id) := by
        rw [List.filter_append]
        have h1 : ((db.tickets.filter fun t => t.orderId ≠ order.id).filter
            fun t => t.orderId = order.id) = [] := by
          rw [List.filter_eq_nil_iff]
          intro t htmem
          have h2 := (List.mem_filter.mp htmem).2
          simpa using h2
        have h3 : (((reqs2.map (toValid flight)).map
              (mkNewTicket flight order.id)).filter
            fun t => t.orderId = order.id)
            = (reqs2.map (toValid flight)).map (mkNewTicket flight order.id) := by
          rw [List.filter_eq_self]
          intro t htmem
          obtain ⟨v, hv, rfl⟩ := List.mem_map.mp htmem
          simp [mkNewTicket]
        rw [h1, h3, List.nil_append]
      rw [hfilter]
      simp [List.length_map]
    · intro t ht hto
      rcases List.mem_append.mp ht with hold | hnew
      · exfalso
        have h2 := (List.mem_filter.mp hold).2
        simp [hto] at h2
      · obtain ⟨v, hv, rfl⟩ := List.mem_map.mp hnew
        rfl

/-- Witness for C6: a concrete successful create and a concrete
successful replace, each with correct total and ticket prices. -/
theorem claim_C6_total_price_witness :
    (∃ o ∈ dbCreated.orders, o.id = dbOne.nextOrderId
        ∧ o.total_price = fTen.price
            * ((dbCreated.tickets.filter fun t => t.orderId = o.id).length : Int)
        ∧ ∀ t ∈ dbCreated.tickets, t.orderId = o.id → t.price = fTen.price)
      ∧ (∃ o ∈ dbReplaced.orders, o.id = ordOne.id
        ∧ o.total_price = fTen.price
            * ((dbReplaced.tickets.filter fun t => t.orderId = o.id).length : Int)
        ∧ ∀ t ∈ dbReplaced.tickets, t.orderId = o.id → t.price = fTen.price) :=
  ⟨(claim_C6_total_price dbOne ordOne fTen 8 [mkReq 2 2] [mkReq 1 2, mkReq 1 3]
      dbCreated dbReplaced).1 rfl (by decide),
   (claim_C6_total_price dbOne ordOne fTen 8 [mkReq 2 2] [mkReq 1 2, mkReq 1 3]
      dbCreated dbReplaced).2 rfl (by decide)⟩

theorem ticketSerializer_validate_congr (f : Flight) (r r2 : TicketReq)
    (h1 : r.row = r2.row) (h2 : r.seat = r2.seat) :
    ticketSerializer_validate f r = ticketSerializer_validate f r2 := by
  unfold ticketSerializer_validate toValid
  rw [h1, h2]

theorem to_internal_congr (f : Flight) (reqs reqs2 : List TicketReq)
    (h : reqPairs reqs = reqPairs reqs2) :
    customTicketField_to_internal_value f reqs
      = customTicketField_to_internal_value f reqs2 := by
  induction reqs generalizing reqs2 with
  | nil =>
    cases reqs2 with
    | nil => rfl
    | cons r2 rest2 => simp [reqPairs] at h
  | cons r rest ih =>
    cases reqs2 with
    | nil => simp [reqPairs] at h
    | cons r2 rest2 =>
      simp only [reqPairs, List.map_cons, List.cons.injEq, Prod.mk.injEq] at h
      obtain ⟨⟨hrow, hseat⟩, htail⟩ := h
      unfold customTicketField_to_internal_value
      rw [ticketSerializer_validate_congr f r r2 hrow hseat, ih rest2 htail]

theorem createOrderTxn_congr (db : DB) (f : Flight) (userId : Nat)
    (reqs reqs2 : List TicketReq) (h : reqPairs reqs = reqPairs reqs2) :
    createOrderTxn db f userId reqs = createOrderTxn db f userId reqs2 := by
  unfold createOrderTxn createOrderFlow
  rw [to_internal_congr f reqs reqs2 h]

theorem ticketSerializer_validate_error_shape (f : Flight) (r : TicketReq)
    (e : ApiError) (h : ticketSerializer_validate f r = .error e) :
    e = .rowOutOfRange r.row f.airplane.rows
      ∨ e = .seatOutOfRange r.seat f.airplane.seats_in_row := by
  by_cases hrow : 1 ≤ r.row ∧ r.row ≤ f.airplane.rows
  · by_cases hseat : 1 ≤ r.seat ∧ r.seat ≤ f.airplane.seats_in_row
    · rw [ticketSerializer_validate_of_inBounds f r
        (by rw [inBounds_iff]; exact ⟨hrow, hseat⟩)] at h
      exact absurd h (by simp)
    · rw [ticketSerializer_validate_of_seat_bad f r hrow hseat] at h
      exact Or.inr (by simpa using h.symm)
  · rw [ticketSerializer_validate_of_row_bad f r hrow] at h
    exact Or.inl (by simpa using h.symm)

theorem to_internal_error_shape (f : Flight) (reqs : List TicketReq)
    (e : ApiError) (h : customTicketField_to_internal_value f reqs = .error e) :
    ∃ r : TicketReq, e = .rowOutOfRange r.row f.airplane.rows
      ∨ e = .seatOutOfRange r.seat f.airplane.seats_in_row := by
  induction reqs with
  | nil => exact absurd h (by simp [customTicketField_to_internal_value])
  | cons r rest ih =>
    unfold customTicketField_to_internal_value at h
    cases hv : ticketSerializer_validate f r <;> rw [hv] at h <;> dsimp only at h
    case error e2 =>
      obtain rfl : e2 = e := by simpa using h
      exact ⟨r, ticketSerializer_validate_error_shape f r _ hv⟩
    case ok t =>
      cases hrest : customTicketField_to_internal_value f rest <;>
        rw [hrest] at h <;> dsimp only at h
      case error e2 =>
        obtain rfl : e2 = e := by simpa using h
        exact ih hrest
      case ok ts => exact absurd h (by simp)

theorem orderSerializer_validate_error_shape (ts : List ValidTicket)
    (e : ApiError) (h : orderSerializer_validate ts = .error e) :
    ∃ p : Int × Int, e = .duplicateSeat p.1 p.2 := by
  unfold orderSerializer_validate at h
  cases hf : find_duplicate_seat [] (ts.map fun t => (t.row, t.seat)) <;>
    rw [hf] at h
  case none => exact absurd h (by simp)
  case some p => exact ⟨p, by simpa using h.symm⟩

theorem orderSerializer_create_conflict_elim (db : DB) (flight : Flight)
    (userId : Nat) (td : List ValidTicket) (cs : List (Int × Int))
    (h : orderSerializer_create db flight userId td = .error (.seatConflict cs)) :
    cs = conflictingSeats (requestedSeats td)
      (probeTakenSeats db.tickets flight.id (requestedSeats td)) := by
  simp only [orderSerializer_create] at h
  split at h
  case isTrue hc =>
    cases hb : bulk_create db.tickets (td.map (mkNewTicket flight db.nextOrderId)) <;>
      rw [hb] at h <;> dsimp only at h
    case error e =>
      obtain rfl := bulk_create_error_eq _ _ _ hb
      exact absurd h (by simp)
    case ok allT => exact absurd h (by simp)
  case isFalse hc => simpa using h.symm

theorem createOrderFlow_conflict_elim (db : DB) (flight : Flight) (userId : Nat)
    (reqs : List TicketReq) (cs : List (Int × Int))
    (h : createOrderFlow db flight userId reqs = .error (.seatConflict cs)) :
    ∀ p, p ∈ cs ↔
      (p ∈ reqPairs reqs ∧ hasLiveTicket db.tickets flight.id p = true) := by
  unfold createOrderFlow at h
  cases hti : customTicketField_to_internal_value flight reqs <;>
    rw [hti] at h <;> dsimp only at h
  case error e =>
    obtain rfl : e = .seatConflict cs := by simpa using h
    obtain ⟨r, hr⟩ := to_internal_error_shape _ _ _ hti
    rcases hr with h2 | h2 <;> exact absurd h2 (by simp)
  case ok ts =>
    cases hval : orderSerializer_validate ts <;> rw [hval] at h <;> dsimp only at h
    case error e =>
      obtain rfl : e = .seatConflict cs := by simpa using h
      obtain ⟨p, hp⟩ := orderSerializer_validate_error_shape _ _ hval
      exact absurd hp (by simp)
    case ok ts2 =>
      obtain ⟨hall, rfl⟩ := to_internal_ok_elim _ _ _ hti
      obtain ⟨rfl, hnd⟩ := orderSerializer_validate_ok_elim _ _ hval
      obtain rfl := orderSerializer_create_conflict_elim _ _ _ _ _ h
      intro p
      rw [mem_conflictingSeats_iff, mem_requestedSeats_toValid]

/-- C8: a client-supplied per-ticket price never influences the outcome:
two create submissions with the same (row, seat) batch produce identical
results whatever price fields accompany them; every ticket persisted by a
successful create is priced at the server-computed flight price; and the
seat-conflict error on create names exactly the conflicting pairs — every
requested pair that already has a live ticket, and nothing else. -/
theorem claim_C8_price_ignored (db : DB) (flight : Flight) (userId : Nat)
    (reqs reqs2 : List TicketReq) (db1 : DB) (cs : List (Int × Int)) :
    (reqPairs reqs = reqPairs reqs2 →
        createOrderTxn db flight userId reqs
          = createOrderTxn db flight userId reqs2)
    ∧ (createOrderTxn db flight userId reqs = (db1, none) →
        ∀ t ∈ db1.tickets, t ∉ db.tickets → t.price = flight.price)
    ∧ (createOrderFlow db flight userId reqs = .error (.seatConflict cs) →
        ∀ p, p ∈ cs ↔
          (p ∈ reqPairs reqs ∧ hasLiveTicket db.tickets flight.id p = true)) := by
  refine ⟨createOrderTxn_congr db flight userId reqs reqs2, ?_,
    createOrderFlow_conflict_elim db flight userId reqs cs⟩
  intro htxn t ht hnot
  rw [createOrderTxn, runTxn_ok_iff] at htxn
  obtain ⟨_, _, _, rfl⟩ := createOrderFlow_ok_elim _ _ _ _ _ htxn
  rcases List.mem_append.mp ht with hold | hnew
  · exact absurd hold hnot
  · obtain ⟨v, hv, rfl⟩ := List.mem_map.mp hnew
    rfl

/-- Witness for C8: the same batch with and without a client price gives
identical results, and the conflict error on `dbOne` for the batch
[(1,1),(3,3)] names exactly (1,1). -/
theorem claim_C8_price_ignored_witness :
    (createOrderTxn dbOne fTen 8 [mkReq 1 1, mkReq 3 3]
        = createOrderTxn dbOne fTen 8
            [{ row := 1, seat := 1, price := some 5 },
             { row := 3, seat := 3, price := some 0 }])
      ∧ (((1 : Int), (1 : Int)) ∈ [((1 : Int), (1 : Int))] ↔
          (((1 : Int), (1 : Int)) ∈ reqPairs [mkReq 1 1, mkReq 3 3]
            ∧ hasLiveTicket dbOne.tickets fTen.id (1, 1) = true)) :=
  ⟨(claim_C8_price_ignored dbOne fTen 8 [mkReq 1 1, mkReq 3 3]
      [{ row := 1, seat := 1, price := some 5 },
       { row := 3, seat := 3, price := some 0 }] dbEmpty []).1 (by decide),
   (claim_C8_price_ignored dbOne fTen 8 [mkReq 1 1, mkReq 3 3]
      [mkReq 1 1] dbEmpty [((1 : Int), (1 : Int))]).2.2 rfl (1, 1)⟩

/-- C10 (implicit): an order-create request can only reference a bookable
flight: the flight primary key resolves against the queryset of flights
whose status is SCHEDULED, BOARDING or DELAYED and whose departure time
is not in the past; resolution only ever returns such a flight with the
requested id, and when no flight with that id is in the bookable set —
even if one exists outside it — the reference fails as nonexistent. -/
theorem claim_C10_bookable_flight (flights : List Flight) (now : Int)
    (pk : Nat) (f : Flight) :
    (flightField_to_internal_value flights now pk = .ok f →
        f ∈ flights ∧ f.id = pk ∧ bookableStatusName f.statusName = true
          ∧ now ≤ f.departure_time)
    ∧ ((∀ g ∈ flights, g.id = pk →
          ¬(bookableStatusName g.statusName = true ∧ now ≤ g.departure_time)) →
        flightField_to_internal_value flights now pk = .error .doesNotExist) := by
  constructor
  · intro h
    unfold flightField_to_internal_value at h
    cases hfind : (get_flight_queryset flights now).find? (fun g => g.id == pk) <;>
      rw [hfind] at h <;> dsimp only at h
    case none => exact absurd h (by simp)
    case some g =>
      obtain rfl : g = f := by simpa using h
      have hmem := List.mem_of_find?_eq_some hfind
      have hpred := List.find?_some hfind
      rw [get_flight_queryset, List.mem_filter] at hmem
      have hcond := hmem.2
      simp only [Bool.and_eq_true, decide_eq_true_eq] at hcond
      exact ⟨hmem.1, by simpa using hpred, hcond.1, hcond.2⟩
  · intro hnone
    unfold flightField_to_internal_value
    have hfind : (get_flight_queryset flights now).find? (fun g => g.id == pk)
        = none := by
      rw [List.find?_eq_none]
      intro g hg
      rw [get_flight_queryset, List.mem_filter] at hg
      have hcond := hg.2
      simp only [Bool.and_eq_true, decide_eq_true_eq] at hcond
      intro heq
      exact hnone g hg.1 (by simpa using heq) ⟨hcond.1, hcond.2⟩
    rw [hfind]

/-- Witness for C10: the cancelled flight exists under id 1, yet
resolving id 1 yields the does-not-exist error. -/
theorem claim_C10_bookable_flight_witness :
    (∀ g ∈ [fCancelled], g.id = 1 →
        ¬(bookableStatusName g.statusName = true
          ∧ (40 : Int) ≤ g.departure_time))
      ∧ flightField_to_internal_value [fCancelled] 40 1
          = .error .doesNotExist :=
  ⟨by decide,
    (claim_C10_bookable_flight [fCancelled] 40 1 fCancelled).2 (by decide)⟩

end Airport
